import Mathlib

/-!
# Verification of the `backlight` status-bar block

A shallow embedding of `src/blocks/backlight.rs` (i3status-rust): the
brightness-file reader, the sysfs device resolvers, the inotify watcher
loop body, and the block's `update` lifecycle method, together with
theorems settling the specified properties.

Modelling conventions:
* Filesystem interaction is abstracted into a `FileSystem` record passed
  explicitly to each function that performs I/O in the source.
* Rust `u64` values are `Nat` with an explicit `< 2 ^ 64` overflow bound
  where the source's `parse::<u64>` enforces one.
* The `f64` expression `((brightness as f64 / max as f64) * 100.0) as u64`
  is modelled as exact rational arithmetic truncated toward zero, i.e.
  `brightness * 100 / max` in `Nat` (floor division).  For the concrete
  values appearing in this development the double-precision computation
  is within one ulp of the exact rational and truncates identically.
  For `max = 0` the model returns `0` (Nat division by zero); the Rust
  float division yields `inf`/`NaN` there, so theorems about that case
  only assert reachability, never the displayed value.
* `TextWidget` and `Task` live outside the provided source file
  (`src/widgets/text.rs`, `src/scheduler.rs`); they are modelled from the
  spec as an external collaborator holding a text, an icon and the
  immutable global config, and a message `{id, update_time}`.
-/

set_option autoImplicit false

namespace I3

/-- Error value produced by `block_error(block, message)` in `errors.rs`:
a component tag together with a human-readable message. -/
structure BlockError where
  block : String
  message : String
deriving DecidableEq, Repr

/-- Outcome of opening and reading one file: the open can fail, the
read-to-string can fail, or the whole content is returned. -/
inductive FileRead where
  | openFail
  | readFail
  | content (s : String)
deriving DecidableEq, Repr

/-- Abstract state of the parts of the filesystem the block touches:
per-path file contents, per-path existence, and the listing of the
`/sys/class/backlight` class directory (`none` models an unreadable
directory; each entry is `Except.error ()` when the entry cannot be
stat'd, mirroring `io::Result<DirEntry>`). -/
structure FileSystem where
  readFile : String → FileRead
  pathExists : String → Bool
  readDirBacklight : Option (List (Except Unit String))

/-- Value of a list of decimal digit characters, most significant first,
accumulated exactly like the embedded `parse` loop. -/
def digitsToNat (cs : List Char) : Nat :=
  cs.foldl (fun acc c => acc * 10 + (c.toNat - 48)) 0

/-- Rust's `u64::from_str` accepts an optional leading `+` sign. -/
def stripPlus (cs : List Char) : List Char :=
  match cs with
  | c :: rest => if c = '+' then rest else c :: rest
  | [] => []

/-- Digit run accepted by `u64::from_str` after sign stripping: a
nonempty, all-digit list whose value fits in 64 bits. -/
def parseDigits (cs : List Char) : Option Nat :=
  if cs.isEmpty then none
  else if cs.all Char.isDigit then
    let v := digitsToNat cs
    if v < 2 ^ 64 then some v else none
  else none

/-- Model of `str::parse::<u64>()`: optional leading `+`, then a
nonempty run of ASCII digits whose value fits in 64 bits. -/
def parseU64 (s : String) : Option Nat :=
  parseDigits (stripPlus s.data)

/-- Model of Rust's `String::pop`: remove the last character (no-op on
the empty string). -/
def rustPop (s : String) : String :=
  ⟨s.data.dropLast⟩

/-- Embedding of `read_brightness(device_file)`: open the file, read it
to a string, pop the trailing character, parse as `u64`.  Each failure
returns the corresponding `block_error`. -/
def read_brightness (fs : FileSystem) (device_file : String) : Except BlockError Nat :=
  match fs.readFile device_file with
  | .openFail => .error ⟨"backlight", "Failed to open brightness file"⟩
  | .readFail => .error ⟨"backlight", "Failed to read brightness file"⟩
  | .content s =>
    match parseU64 (rustPop s) with
    | none => .error ⟨"backlight", "Failed to read value from brightness file"⟩
    | some v => .ok v

/-- Root of the sysfs backlight class directory. -/
def backlightRoot : String := "/sys/class/backlight"

/-- A single-quote character as a string, used by `from_device`'s
`format!` message. -/
def squote : String := String.singleton (Char.ofNat 39)

/-- Embedding of `struct BacklitDevice`. -/
structure BacklitDevice where
  max_brightness : Nat
  device_path : String
deriving DecidableEq, Repr

/-- Embedding of `BacklitDevice::default()`: list the class directory,
take the first entry, and read its `max_brightness`. -/
def BacklitDevice.default (fs : FileSystem) : Except BlockError BacklitDevice :=
  match fs.readDirBacklight with
  | none => .error ⟨"backlight", "Failed to read backlight device directory"⟩
  | some [] => .error ⟨"backlight", "No backlit devices found"⟩
  | some (.error _ :: _) => .error ⟨"backlight", "Failed to read default device file"⟩
  | some (.ok name :: _) =>
    let path := backlightRoot ++ "/" ++ name
    match read_brightness fs (path ++ "/max_brightness") with
    | .error e => .error e
    | .ok mb => .ok ⟨mb, path⟩

/-- Error raised by `from_device` when the joined path is absent; the
source's `format!("Backlight device '{}' does not exist", ..)`. -/
def doesNotExistError (device_path : String) : BlockError :=
  ⟨"backlight", "Backlight device " ++ squote ++ device_path ++ squote ++ " does not exist"⟩

/-- Embedding of `BacklitDevice::from_device(device)`: join the name to
the class root, fail if the path does not exist, then read
`max_brightness`. -/
def BacklitDevice.from_device (fs : FileSystem) (device : String) : Except BlockError BacklitDevice :=
  let device_path := backlightRoot ++ "/" ++ device
  if fs.pathExists device_path then
    match read_brightness fs (device_path ++ "/max_brightness") with
    | .error e => .error e
    | .ok mb => .ok ⟨mb, device_path⟩
  else
    .error (doesNotExistError device_path)

/-- Embedding of `BacklitDevice::brightness_file()`. -/
def BacklitDevice.brightness_file (d : BacklitDevice) : String :=
  d.device_path ++ "/brightness"

/-- Embedding of `BacklitDevice::brightness()`. -/
def BacklitDevice.brightness (fs : FileSystem) (d : BacklitDevice) : Except BlockError Nat :=
  read_brightness fs d.brightness_file

/-- Modelled from the spec: the global display configuration handed to
widgets; an external collaborator, kept abstract as an immutable token. -/
structure Config where
  theme : String
deriving DecidableEq, Repr

/-- Modelled from the spec: `TextWidget` (`src/widgets/text.rs` is not
part of this unit).  It holds the immutable config plus the mutable text
and icon set by the block. -/
structure TextWidget where
  config : Config
  text : String
  icon : String
deriving DecidableEq, Repr

/-- Modelled from the spec: `TextWidget::new(config)` starts with empty
text and icon. -/
def TextWidget.new (config : Config) : TextWidget :=
  ⟨config, "", ""⟩

/-- Modelled from the spec: `set_text` replaces only the text. -/
def TextWidget.set_text (w : TextWidget) (s : String) : TextWidget :=
  { w with text := s }

/-- Modelled from the spec: `set_icon` replaces only the icon. -/
def TextWidget.set_icon (w : TextWidget) (s : String) : TextWidget :=
  { w with icon := s }

/-- Modelled from the spec: `scheduler::Task`, the update signal carrying
the originating block's id and a timestamp (time as `Nat`). -/
structure Task where
  id : String
  update_time : Nat
deriving DecidableEq, Repr

/-- Embedding of `struct Backlight`. -/
structure Backlight where
  id : String
  output : TextWidget
  device : BacklitDevice
deriving DecidableEq, Repr

/-- Embedding of `BacklightConfig`: one optional device name. -/
structure BacklightConfig where
  device : Option String
deriving DecidableEq, Repr

/-- Embedding of `ConfigBlock::new` for `Backlight`, minus the spawned
watcher thread (modelled separately by `watcherSignals`): resolve the
device per config and assemble the block.  The uuid generation is
modelled by the caller-supplied `id`. -/
def Backlight.new (block_config : BacklightConfig) (config : Config) (fs : FileSystem)
    (id : String) : Except BlockError Backlight :=
  match (match block_config.device with
         | some path => BacklitDevice.from_device fs path
         | none => BacklitDevice.default fs) with
  | .error e => .error e
  | .ok device => .ok ⟨id, TextWidget.new config, device⟩

/-- Embedding of one inotify event: its event mask, as the raw bitmask. -/
structure InotifyEvent where
  mask : Nat
deriving DecidableEq, Repr

/-- The `IN_MODIFY` bit of `inotify::EventMask`. -/
def EventMask.MODIFY : Nat := 2

/-- Model of `EventMask::contains`: every bit of `flag` is set in `m`. -/
def maskContains (m flag : Nat) : Bool :=
  m &&& flag = flag

/-- Embedding of one iteration of the watcher thread's loop body: after
`read_events_blocking` returns the batch `events`, the code sends a
single `Task {id, now}` when `events.any(|e| e.mask.contains(MODIFY))`
holds, and nothing otherwise. -/
def watcherSignals (id : String) (now : Nat) (events : List InotifyEvent) : List Task :=
  if events.any (fun e => maskContains e.mask EventMask.MODIFY) then
    [⟨id, now⟩]
  else
    []

/-- Number of events of a batch whose mask includes `MODIFY`; the
quantity the spec says the watcher emits one signal per. -/
def countModifiedEvents (events : List InotifyEvent) : Nat :=
  (events.filter (fun e => maskContains e.mask EventMask.MODIFY)).length

/-- Model of `((brightness as f64 / max as f64) * 100.0) as u64`:
exact rational arithmetic truncated toward zero, i.e. floor division
(see the module docstring for the `f64` and division-by-zero caveats). -/
def displayPercent (brightness max_brightness : Nat) : Nat :=
  brightness * 100 / max_brightness

/-- Embedding of the `match display { 0...19 => .., .. }` icon choice in
`Backlight::update`. -/
def iconFor (display : Nat) : String :=
  if display ≤ 19 then "backlight_empty"
  else if display ≤ 39 then "backlight_partial1"
  else if display ≤ 59 then "backlight_partial2"
  else if display ≤ 79 then "backlight_partial3"
  else "backlight_full"

/-- Embedding of `Block::update` for `Backlight`.  Rust mutates
`&mut self` and returns `Result<Option<Duration>>`; here the updated
block is returned alongside the result, and an early `try!` return
leaves the block exactly as it was. -/
def Backlight.update (b : Backlight) (fs : FileSystem) :
    Backlight × Except BlockError (Option Nat) :=
  match b.device.brightness fs with
  | .error e => (b, .error e)
  | .ok brightness =>
    let display := displayPercent brightness b.device.max_brightness
    let output := (b.output.set_text (toString display ++ "%")).set_icon (iconFor display)
    ({ b with output := output }, .ok none)

/-- Embedding of `Block::view`: the single text widget. -/
def Backlight.view (b : Backlight) : List TextWidget :=
  [b.output]

/-- Embedding of `Block::click`: accepted, no state change. -/
def Backlight.click (b : Backlight) : Backlight × Except BlockError Unit :=
  (b, .ok ())

deriving instance DecidableEq for Except

/-! ## Concrete fixtures used by witnesses and counterexamples -/

/-- Path of the concrete test device used by the witnesses. -/
def devPath : String := "/sys/class/backlight/intel_backlight"

/-- Concrete filesystem fixture: one device `intel_backlight` whose
`max_brightness` and `brightness` files hold the given contents; every
other path fails to open. -/
def fsFixture (maxContent brightContent : String) : FileSystem where
  readFile := fun p =>
    if p = devPath ++ "/max_brightness" then .content maxContent
    else if p = devPath ++ "/brightness" then .content brightContent
    else .openFail
  pathExists := fun p => p == devPath
  readDirBacklight := some [.ok "intel_backlight"]

/-- Concrete filesystem fixture with an unreadable backlight class
directory and no files. -/
def fsUnreadableDir : FileSystem where
  readFile := fun _ => .openFail
  pathExists := fun _ => false
  readDirBacklight := none

/-- Concrete filesystem fixture with an empty backlight class directory. -/
def fsEmptyDir : FileSystem where
  readFile := fun _ => .openFail
  pathExists := fun _ => false
  readDirBacklight := some []

/-- Concrete filesystem fixture whose first directory entry cannot be
stat'd. -/
def fsStatFailDir : FileSystem where
  readFile := fun _ => .openFail
  pathExists := fun _ => false
  readDirBacklight := some [.error ()]

/-- Concrete block fixture over `devPath` with the given maximum. -/
def blkFixture (m : Nat) : Backlight :=
  ⟨"id0", TextWidget.new ⟨"default"⟩, ⟨m, devPath⟩⟩

/-! ## C1: displayed percentage and widget text -/

/-- Stated from the spec's words, for comparison with the embedded code:
`round(brightness / max_brightness * 100)` as round-half-up over exact
rationals, expressed with natural-number arithmetic (`⌊100·b/m + 1/2⌋ =
(200·b + m) / (2·m)`, see `specRoundPercent_eq_floor_add_half`). -/
def specRoundPercent (b m : Nat) : Nat :=
  (b * 100 * 2 + m) / (m * 2)

lemma specRoundPercent_eq_floor_add_half (b m : Nat) (hm : 0 < m) :
    specRoundPercent b m = Nat.floor ((b * 100 : ℚ) / m + 1 / 2) := by
  have hm' : (m : ℚ) ≠ 0 := Nat.cast_ne_zero.mpr hm.ne'
  rw [show ((b * 100 : ℚ) / m + 1 / 2) = ((b * 100 * 2 + m : ℕ) : ℚ) / ((m * 2 : ℕ) : ℚ) by
        push_cast
        field_simp,
      Nat.floor_div_eq_div]
  rfl

/-- **C1, counterexample.** With `max_brightness = 3` and brightness file
content `"2\n"`, `update()` displays `"66%"` (truncation of 200/3),
whereas the claimed `round(brightness / max_brightness * 100)` is `67`:
the displayed percentage is not the rounded value. -/
theorem update_text_not_rounded_percent :
    ((blkFixture 3).update (fsFixture "3\n" "2\n")).1.output.text = "66%" ∧
    specRoundPercent 2 3 = 67 ∧
    ((blkFixture 3).update (fsFixture "3\n" "2\n")).1.output.text ≠
      toString (specRoundPercent 2 3) ++ "%" :=
  ⟨rfl, rfl, by decide⟩

/-- **C1, amended.** For every successful `update()` call, the displayed
percentage equals the truncation toward zero (the floor) of
`brightness / max_brightness * 100`, the widget's text is set to that
percentage followed by `"%"`, and no fixed re-poll interval is
requested. -/
theorem update_text_is_truncated_percent (b : Backlight) (fs : FileSystem) (v : Nat)
    (h : b.device.brightness fs = .ok v) :
    (b.update fs).2 = .ok none ∧
    (b.update fs).1.output.text =
      toString (Nat.floor ((v * 100 : ℚ) / b.device.max_brightness)) ++ "%" := by
  have hfloor : Nat.floor ((v * 100 : ℚ) / b.device.max_brightness)
      = displayPercent v b.device.max_brightness := by
    rw [show ((v * 100 : ℚ)) = ((v * 100 : ℕ) : ℚ) by push_cast; ring,
        Nat.floor_div_eq_div]
    rfl
  unfold Backlight.update
  rw [h, hfloor]
  exact ⟨rfl, rfl⟩

/-- Witness for `update_text_is_truncated_percent` at the spec's own test
vector: content `"128\n"` with `max_brightness = 255` displays `"50%"`. -/
theorem update_text_is_truncated_percent_witness :
    ((blkFixture 255).update (fsFixture "255\n" "128\n")).2 = .ok none ∧
    ((blkFixture 255).update (fsFixture "255\n" "128\n")).1.output.text =
      toString (Nat.floor ((((128 : Nat) : ℚ) * 100) / ((blkFixture 255).device.max_brightness : ℚ))) ++ "%" :=
  update_text_is_truncated_percent (blkFixture 255) (fsFixture "255\n" "128\n") 128 rfl

/-! ## C2: watcher signals per event batch -/

/-- **C2, counterexample.** A batch holding two MODIFY events makes the
watcher loop body emit a single signal, not one signal per modified
event as claimed. -/
theorem watcher_coalesces_modified_batch :
    countModifiedEvents [⟨2⟩, ⟨2⟩] = 2 ∧
    (watcherSignals "blk" 7 [⟨2⟩, ⟨2⟩]).length = 1 ∧
    (watcherSignals "blk" 7 [⟨2⟩, ⟨2⟩]).length ≠ countModifiedEvents [⟨2⟩, ⟨2⟩] :=
  ⟨rfl, rfl, by decide⟩

/-- **C2, amended.** One iteration of the watcher loop emits exactly one
update signal, carrying the block's id and the current time, when the
delivered batch contains at least one event whose mask includes MODIFY;
it emits nothing when no event's mask does; and it never emits more than
one signal per batch, however many modified events the batch holds. -/
theorem watcher_one_signal_per_modified_batch (id : String) (now : Nat)
    (events : List InotifyEvent) :
    ((∃ e ∈ events, maskContains e.mask EventMask.MODIFY = true) →
      watcherSignals id now events = [⟨id, now⟩]) ∧
    ((∀ e ∈ events, maskContains e.mask EventMask.MODIFY = false) →
      watcherSignals id now events = []) ∧
    (watcherSignals id now events).length ≤ 1 := by
  refine ⟨?_, ?_, ?_⟩
  · intro h
    unfold watcherSignals
    rw [if_pos (List.any_eq_true.mpr (by simpa using h))]
  · intro h
    unfold watcherSignals
    have hall : events.any (fun e => maskContains e.mask EventMask.MODIFY) = false := by
      simp only [List.any_eq_false]
      intro e he
      simp [h e he]
    simp [hall]
  · unfold watcherSignals
    split <;> simp

/-- Witness for `watcher_one_signal_per_modified_batch`: a batch with a
single MODIFY event yields exactly the one signal `⟨id, now⟩`. -/
theorem watcher_one_signal_per_modified_batch_witness :
    watcherSignals "blk" 7 [⟨2⟩] = [⟨"blk", 7⟩] :=
  (watcher_one_signal_per_modified_batch "blk" 7 [⟨2⟩]).1 (by decide)

/-! ## C3: icon tier bands -/

/-- Stated from the spec's words, for comparison with the embedded code:
the inclusive icon bands of §4.4.  Percentages above 100 are outside
every band the spec enumerates. -/
def specTier (p : Nat) : String :=
  if p ≤ 19 then "backlight_empty"
  else if 20 ≤ p ∧ p ≤ 39 then "backlight_partial1"
  else if 40 ≤ p ∧ p ≤ 59 then "backlight_partial2"
  else if 60 ≤ p ∧ p ≤ 79 then "backlight_partial3"
  else if 80 ≤ p ∧ p ≤ 100 then "backlight_full"
  else "unspecified"

/-- **C3.** Icon tier selection in `update()` is a pure function of the
computed percentage (`iconFor` applied to the displayed percentage), and
on `[0,100]` — boundary values included — `iconFor` coincides with the
spec's inclusive bands. -/
theorem update_icon_matches_spec_bands :
    (∀ p : Fin 101, iconFor p.val = specTier p.val) ∧
    (∀ (b : Backlight) (fs : FileSystem) (v : Nat),
      b.device.brightness fs = .ok v →
      (b.update fs).1.output.icon = iconFor (displayPercent v b.device.max_brightness)) := by
  refine ⟨by decide, ?_⟩
  intro b fs v h
  unfold Backlight.update
  rw [h]
  rfl

/-- Witness for `update_icon_matches_spec_bands` at content `"128\n"`,
`max_brightness = 255`: the icon is the one selected from the displayed
percentage. -/
theorem update_icon_matches_spec_bands_witness :
    ((blkFixture 255).update (fsFixture "255\n" "128\n")).1.output.icon =
      iconFor (displayPercent 128 (blkFixture 255).device.max_brightness) :=
  update_icon_matches_spec_bands.2 (blkFixture 255) (fsFixture "255\n" "128\n") 128 rfl

/-! ## C4: exact final-character stripping -/

lemma digitsToNat_append_singleton (cs : List Char) (c : Char) :
    digitsToNat (cs ++ [c]) = digitsToNat cs * 10 + (c.toNat - 48) := by
  simp [digitsToNat, List.foldl_append]

lemma isDigit_ne_plus {c : Char} (h : c.isDigit = true) : ¬ c = '+' := by
  intro hc
  subst hc
  exact absurd h (by decide)

lemma stripPlus_digits {cs : List Char} (h : cs.all Char.isDigit = true) :
    stripPlus cs = cs := by
  cases cs with
  | nil => rfl
  | cons c rest =>
    show (if c = '+' then rest else c :: rest) = c :: rest
    rw [if_neg]
    simp only [List.all_cons, Bool.and_eq_true] at h
    exact isDigit_ne_plus h.1

lemma parseDigits_all_digits {cs : List Char} (h1 : cs ≠ []) (h2 : cs.all Char.isDigit = true)
    (h3 : digitsToNat cs < 2 ^ 64) :
    parseDigits cs = some (digitsToNat cs) := by
  unfold parseDigits
  rw [if_neg (by simp [h1]), if_pos h2]
  exact if_pos h3

lemma parseU64_digits {cs : List Char} (h1 : cs ≠ []) (h2 : cs.all Char.isDigit = true)
    (h3 : digitsToNat cs < 2 ^ 64) :
    parseU64 ⟨cs⟩ = some (digitsToNat cs) := by
  show parseDigits (stripPlus cs) = some (digitsToNat cs)
  rw [stripPlus_digits h2]
  exact parseDigits_all_digits h1 h2 h3

/-- **C4.** `read_brightness` strips exactly the final character of the
content before parsing: digit content followed by one trailing newline
parses to the number it spells, and multi-digit digit content with no
trailing newline parses to the number with its final digit dropped. -/
theorem read_brightness_strips_exactly_last_char (fs : FileSystem) (path : String)
    (cs : List Char) (h2 : cs.all Char.isDigit = true) (h3 : digitsToNat cs < 2 ^ 64) :
    (cs ≠ [] → fs.readFile path = .content ⟨cs ++ ['\n']⟩ →
      read_brightness fs path = .ok (digitsToNat cs)) ∧
    (2 ≤ cs.length → fs.readFile path = .content ⟨cs⟩ →
      read_brightness fs path = .ok (digitsToNat cs.dropLast)) := by
  constructor
  · intro h1 hc
    have hparse : parseU64 (rustPop ⟨cs ++ ['\n']⟩) = some (digitsToNat cs) := by
      have hpop : rustPop ⟨cs ++ ['\n']⟩ = (⟨cs⟩ : String) := by
        simp [rustPop]
      rw [hpop]
      exact parseU64_digits h1 h2 h3
    simp only [read_brightness, hc, hparse]
  · intro hlen hc
    have hne : cs ≠ [] := by
      intro h
      subst h
      simp at hlen
    have h1' : cs.dropLast ≠ [] := by
      intro hnil
      have := congrArg List.length hnil
      simp [List.length_dropLast] at this
      omega
    have h2' : cs.dropLast.all Char.isDigit = true := by
      rw [List.all_eq_true] at h2 ⊢
      intro c hcmem
      exact h2 c (List.dropLast_subset _ hcmem)
    have h3' : digitsToNat cs.dropLast < 2 ^ 64 := by
      have hd : cs.dropLast ++ [cs.getLast hne] = cs := List.dropLast_append_getLast hne
      have hsplit : digitsToNat cs
          = digitsToNat cs.dropLast * 10 + ((cs.getLast hne).toNat - 48) := by
        conv_lhs => rw [← hd]
        exact digitsToNat_append_singleton _ _
      have hpow : (2 : ℕ) ^ 64 = 18446744073709551616 := by norm_num
      omega
    have hparse : parseU64 (rustPop ⟨cs⟩) = some (digitsToNat cs.dropLast) := by
      have hpop : rustPop ⟨cs⟩ = (⟨cs.dropLast⟩ : String) := rfl
      rw [hpop]
      exact parseU64_digits h1' h2' h3'
    simp only [read_brightness, hc, hparse]

/-- Witness for `read_brightness_strips_exactly_last_char`: content
`"128\n"` reads as 128, while `"128"` (no trailing newline) silently
reads as 12. -/
theorem read_brightness_strips_exactly_last_char_witness :
    read_brightness (fsFixture "255\n" "128\n") (devPath ++ "/brightness") = .ok 128 ∧
    read_brightness (fsFixture "255\n" "128") (devPath ++ "/brightness") = .ok 12 :=
  ⟨(read_brightness_strips_exactly_last_char (fsFixture "255\n" "128\n")
      (devPath ++ "/brightness") (String.toList "128") (by decide) (by decide)).1
      (by decide) rfl,
   (read_brightness_strips_exactly_last_char (fsFixture "255\n" "128")
      (devPath ++ "/brightness") (String.toList "128") (by decide) (by decide)).2
      (by decide) rfl⟩

/-! ## C5: percentage range and endpoints -/

/-- **C5.** For every valid brightness `b` in `[0, m]` with
`m = max_brightness > 0`, the percentage `update()` computes
(`displayPercent`) lies in `[0, 100]`; brightness `0` displays `0` with
the empty tier, and brightness equal to the maximum displays `100` with
the full tier. -/
theorem update_percent_in_range (m b : Nat) (hm : 0 < m) (hb : b ≤ m) :
    displayPercent b m ≤ 100 ∧
    displayPercent 0 m = 0 ∧ iconFor (displayPercent 0 m) = "backlight_empty" ∧
    displayPercent m m = 100 ∧ iconFor (displayPercent m m) = "backlight_full" := by
  have hzero : displayPercent 0 m = 0 := by
    simp [displayPercent]
  have hmm : displayPercent m m = 100 := by
    unfold displayPercent
    exact Nat.mul_div_cancel_left 100 hm
  refine ⟨?_, hzero, by rw [hzero]; rfl, hmm, by rw [hmm]; rfl⟩
  calc displayPercent b m = b * 100 / m := rfl
    _ ≤ m * 100 / m := Nat.div_le_div_right (by omega)
    _ = 100 := Nat.mul_div_cancel_left 100 hm

/-- Witness for `update_percent_in_range` at the spec's test vector
`max_brightness = 255`, `brightness = 128`. -/
theorem update_percent_in_range_witness :
    displayPercent 128 255 ≤ 100 ∧
    displayPercent 0 255 = 0 ∧ iconFor (displayPercent 0 255) = "backlight_empty" ∧
    displayPercent 255 255 = 100 ∧ iconFor (displayPercent 255 255) = "backlight_full" :=
  update_percent_in_range 255 128 (by decide) (by decide)

/-! ## C6: parse failures return tagged errors -/

/-- **C6.** Whenever the content's text after stripping the final
character is not a valid non-negative 64-bit integer, `read_brightness`
returns a parse error tagged with the component name `"backlight"` and a
human-readable message; being a total function of the modelled inputs it
never panics.  Malformed (`"abc\n"`), empty and whitespace-only contents
are instances, exercised by the witness. -/
theorem read_brightness_parse_error (fs : FileSystem) (path : String) (s : String)
    (hc : fs.readFile path = .content s) (hp : parseU64 (rustPop s) = none) :
    read_brightness fs path =
      .error ⟨"backlight", "Failed to read value from brightness file"⟩ := by
  simp only [read_brightness, hc, hp]

/-- Witness for `read_brightness_parse_error` at the contents `"abc\n"`,
`""` and `" \n"`. -/
theorem read_brightness_parse_error_witness :
    read_brightness (fsFixture "255\n" "abc\n") (devPath ++ "/brightness") =
      .error ⟨"backlight", "Failed to read value from brightness file"⟩ ∧
    read_brightness (fsFixture "255\n" "") (devPath ++ "/brightness") =
      .error ⟨"backlight", "Failed to read value from brightness file"⟩ ∧
    read_brightness (fsFixture "255\n" " \n") (devPath ++ "/brightness") =
      .error ⟨"backlight", "Failed to read value from brightness file"⟩ :=
  ⟨read_brightness_parse_error (fsFixture "255\n" "abc\n") (devPath ++ "/brightness")
      "abc\n" rfl (by decide),
   read_brightness_parse_error (fsFixture "255\n" "") (devPath ++ "/brightness")
      "" rfl (by decide),
   read_brightness_parse_error (fsFixture "255\n" " \n") (devPath ++ "/brightness")
      " \n" rfl (by decide)⟩

/-! ## C7: default-device resolution errors -/

/-- **C7, counterexample.** An unreadable backlight class directory does
not fail with the "no devices found" error: it fails with the distinct
"failed to read backlight device directory" error. -/
theorem default_unreadable_dir_error_distinct :
    BacklitDevice.default fsUnreadableDir =
      .error ⟨"backlight", "Failed to read backlight device directory"⟩ ∧
    BacklitDevice.default fsUnreadableDir ≠
      .error ⟨"backlight", "No backlit devices found"⟩ :=
  ⟨rfl, by decide⟩

/-- **C7, amended.** Default-device resolution takes the first entry of
the class-directory listing in listing order; an empty listing fails
with the "no devices found" error, an unreadable listing fails with the
distinct "failed to read backlight device directory" error, a first
entry that cannot be stat'd fails with the "failed to read default
device file" error, and any `max_brightness` read/parse failure
propagates verbatim as the resolver's failure. -/
theorem default_device_resolution (fs : FileSystem) :
    (fs.readDirBacklight = none →
      BacklitDevice.default fs =
        .error ⟨"backlight", "Failed to read backlight device directory"⟩) ∧
    (fs.readDirBacklight = some [] →
      BacklitDevice.default fs = .error ⟨"backlight", "No backlit devices found"⟩) ∧
    (∀ rest, fs.readDirBacklight = some (.error () :: rest) →
      BacklitDevice.default fs =
        .error ⟨"backlight", "Failed to read default device file"⟩) ∧
    (∀ name rest e, fs.readDirBacklight = some (.ok name :: rest) →
      read_brightness fs ((backlightRoot ++ "/" ++ name) ++ "/max_brightness") = .error e →
      BacklitDevice.default fs = .error e) ∧
    (∀ name rest mb, fs.readDirBacklight = some (.ok name :: rest) →
      read_brightness fs ((backlightRoot ++ "/" ++ name) ++ "/max_brightness") = .ok mb →
      BacklitDevice.default fs = .ok ⟨mb, backlightRoot ++ "/" ++ name⟩) := by
  refine ⟨?_, ?_, ?_, ?_, ?_⟩
  · intro h
    simp only [BacklitDevice.default, h]
  · intro h
    simp only [BacklitDevice.default, h]
  · intro rest h
    simp only [BacklitDevice.default, h]
  · intro name rest e h hr
    simp only [BacklitDevice.default, h, hr]
  · intro name rest mb h hr
    simp only [BacklitDevice.default, h, hr]

/-- Witness for `default_device_resolution`: the empty directory, the
unstatable first entry, a malformed `max_brightness`, and the successful
resolution of the fixture device. -/
theorem default_device_resolution_witness :
    BacklitDevice.default fsEmptyDir = .error ⟨"backlight", "No backlit devices found"⟩ ∧
    BacklitDevice.default fsStatFailDir =
      .error ⟨"backlight", "Failed to read default device file"⟩ ∧
    BacklitDevice.default (fsFixture "abc\n" "10\n") =
      .error ⟨"backlight", "Failed to read value from brightness file"⟩ ∧
    BacklitDevice.default (fsFixture "255\n" "10\n") =
      .ok ⟨255, backlightRoot ++ "/" ++ "intel_backlight"⟩ :=
  ⟨(default_device_resolution fsEmptyDir).2.1 rfl,
   (default_device_resolution fsStatFailDir).2.2.1 [] rfl,
   (default_device_resolution (fsFixture "abc\n" "10\n")).2.2.2.1 "intel_backlight" []
      ⟨"backlight", "Failed to read value from brightness file"⟩ rfl rfl,
   (default_device_resolution (fsFixture "255\n" "10\n")).2.2.2.2 "intel_backlight" []
      255 rfl rfl⟩

/-! ## C8: named-device resolution -/

lemma doesNotExistError_message_head (p : String) :
    (doesNotExistError p).message.data.head? = some 'B' := by
  show ("Backlight device " ++ (squote ++ (p ++ (squote ++ " does not exist")))).data.head?
    = some 'B'
  rw [String.data_append]
  rfl

lemma read_brightness_error_message_head (fs : FileSystem) (p : String) (e : BlockError)
    (h : read_brightness fs p = .error e) : e.message.data.head? = some 'F' := by
  unfold read_brightness at h
  cases hread : fs.readFile p with
  | openFail =>
    rw [hread] at h
    injection h with h'
    rw [← h']
    rfl
  | readFail =>
    rw [hread] at h
    injection h with h'
    rw [← h']
    rfl
  | content s =>
    rw [hread] at h
    have h2 : (match parseU64 (rustPop s) with
        | none => (Except.error ⟨"backlight", "Failed to read value from brightness file"⟩ :
            Except BlockError Nat)
        | some v => Except.ok v) = Except.error e := h
    cases hp : parseU64 (rustPop s) with
    | none =>
      rw [hp] at h2
      injection h2 with h'
      rw [← h']
      rfl
    | some v =>
      rw [hp] at h2
      exact Except.noConfusion h2

/-- **C8.** Named-device resolution joins the name to the class root and
fails with the "does not exist" error exactly when that path is absent;
when the path exists, the only remaining steps are reading
`max_brightness` (whose failure propagates verbatim) and assembling the
device — existence is the only validation performed. -/
theorem from_device_exists_only_validation (fs : FileSystem) (name : String) :
    (BacklitDevice.from_device fs name =
        .error (doesNotExistError (backlightRoot ++ "/" ++ name)) ↔
      fs.pathExists (backlightRoot ++ "/" ++ name) = false) ∧
    (fs.pathExists (backlightRoot ++ "/" ++ name) = true →
      (∀ e, read_brightness fs ((backlightRoot ++ "/" ++ name) ++ "/max_brightness") = .error e →
        BacklitDevice.from_device fs name = .error e) ∧
      (∀ mb, read_brightness fs ((backlightRoot ++ "/" ++ name) ++ "/max_brightness") = .ok mb →
        BacklitDevice.from_device fs name = .ok ⟨mb, backlightRoot ++ "/" ++ name⟩)) := by
  constructor
  · constructor
    · intro h
      cases hex : fs.pathExists (backlightRoot ++ "/" ++ name) with
      | false => rfl
      | true =>
        exfalso
        have hfd : BacklitDevice.from_device fs name =
            (match read_brightness fs ((backlightRoot ++ "/" ++ name) ++ "/max_brightness") with
             | .error e => .error e
             | .ok mb => .ok ⟨mb, backlightRoot ++ "/" ++ name⟩) := by
          simp [BacklitDevice.from_device, hex]
        rw [hfd] at h
        cases hr : read_brightness fs ((backlightRoot ++ "/" ++ name) ++ "/max_brightness") with
        | ok mb =>
          rw [hr] at h
          exact Except.noConfusion h
        | error e =>
          rw [hr] at h
          injection h with h'
          have hF := read_brightness_error_message_head fs _ e hr
          rw [h', doesNotExistError_message_head] at hF
          simp at hF
    · intro h
      simp [BacklitDevice.from_device, h]
  · intro h
    constructor
    · intro e hr
      simp only [BacklitDevice.from_device, h, if_true, hr]
    · intro mb hr
      simp only [BacklitDevice.from_device, h, if_true, hr]

/-- Witness for `from_device_exists_only_validation`: a missing device
fails with the "does not exist" error, and the fixture device resolves
with its `max_brightness`. -/
theorem from_device_exists_only_validation_witness :
    BacklitDevice.from_device fsEmptyDir "nope" =
      .error (doesNotExistError (backlightRoot ++ "/" ++ "nope")) ∧
    BacklitDevice.from_device (fsFixture "255\n" "10\n") "intel_backlight" =
      .ok ⟨255, backlightRoot ++ "/" ++ "intel_backlight"⟩ :=
  ⟨(from_device_exists_only_validation fsEmptyDir "nope").1.mpr rfl,
   ((from_device_exists_only_validation (fsFixture "255\n" "10\n") "intel_backlight").2
      (by decide)).2 255 rfl⟩

/-! ## C9: zero max_brightness is constructible -/

/-- Concrete filesystem whose single device reports `max_brightness = 0`
and brightness 3. -/
def fsZeroMax : FileSystem := fsFixture "0\n" "3\n"

/-- The block that construction assembles over `fsZeroMax`. -/
def blkZeroMax : Backlight := ⟨"id0", TextWidget.new ⟨"cfg"⟩, ⟨0, devPath⟩⟩

/-- **C9.** Neither resolver rejects `max_brightness = 0`: a device whose
`max_brightness` file reads `"0\n"` is accepted by both `from_device`
and `default`, block construction succeeds on it, and `update()` then
runs its percentage division with divisor `max_brightness = 0` while the
brightness read itself succeeds.  (The model's `Nat` division is total
at divisor 0; in the source the unguarded `f64` division by zero is this
very branch.) -/
theorem zero_max_brightness_constructible :
    BacklitDevice.from_device fsZeroMax "intel_backlight" = .ok blkZeroMax.device ∧
    BacklitDevice.default fsZeroMax = .ok blkZeroMax.device ∧
    Backlight.new ⟨some "intel_backlight"⟩ ⟨"cfg"⟩ fsZeroMax "id0" = .ok blkZeroMax ∧
    blkZeroMax.device.max_brightness = 0 ∧
    blkZeroMax.device.brightness fsZeroMax = .ok 3 ∧
    (blkZeroMax.update fsZeroMax).2 = .ok none :=
  ⟨rfl, rfl, rfl, rfl, rfl, rfl⟩

/-! ## C10: update frame conditions -/

/-- **C10.** Every `update()` call leaves the block's id and device
(hence `max_brightness` and `device_path`) unchanged and preserves the
widget's config, mutating only the widget's text and icon; on success it
returns no fixed re-poll interval (`none`), and on failure it returns
the error with the block state exactly as before. -/
theorem update_frame (b : Backlight) (fs : FileSystem) :
    ((b.update fs).1.id = b.id ∧
     (b.update fs).1.device = b.device ∧
     (b.update fs).1.output.config = b.output.config) ∧
    (∀ e, (b.update fs).2 = .error e → (b.update fs).1 = b) ∧
    (∀ r, (b.update fs).2 = .ok r → r = none) := by
  unfold Backlight.update
  cases hb : b.device.brightness fs with
  | error e =>
    refine ⟨⟨rfl, rfl, rfl⟩, fun e' _ => rfl, fun r hr => ?_⟩
    exact Except.noConfusion hr
  | ok v =>
    refine ⟨⟨rfl, rfl, rfl⟩, fun e' he => ?_, fun r hr => ?_⟩
    · exact Except.noConfusion he
    · injection hr with h'
      exact h'.symm

/-- Witness for `update_frame`: a failed update (unopenable brightness
file) leaves the block untouched, and a successful update preserves the
device. -/
theorem update_frame_witness :
    ((blkFixture 3).update fsUnreadableDir).1 = blkFixture 3 ∧
    ((blkFixture 255).update (fsFixture "255\n" "128\n")).1.device = (blkFixture 255).device :=
  ⟨(update_frame (blkFixture 3) fsUnreadableDir).2.1
      ⟨"backlight", "Failed to open brightness file"⟩ rfl,
   (update_frame (blkFixture 255) (fsFixture "255\n" "128\n")).1.2.1⟩

end I3
